import Mathlib

/-!
Verification development for the analysis-service core of the
agentic-support-stack repository.

The embedding follows `backend/app/application/analysis_service.py`
(constants, regex extraction, `analizar_codigo`, `_persist_analysis`,
`_update_user_counters`, `obtener_estadisticas`, `obtener_historial`),
`backend/app/domain/models.py` (the `Analysis` check constraint and the
quota fields of `User`), `backend/app/infrastructure/gemini_client.py`
(`GeminiClient.analyze_code`), `backend/app/infrastructure/database.py`
(the commit-on-success / rollback-on-exception boundary of `get_db`) and
`backend/app/web/routers/analysis_router.py` (the endpoint raising
`HTTPException` whenever the service reports `success=False`).

Python strings are modelled as lists of characters (`Str`).  The two
pre-compiled regular expressions `_SCORE_PATTERN` and
`_IMPROVED_CODE_PATTERNS` are embedded by a small backtracking matcher
whose construct set (literals, character classes, greedy and lazy stars,
one capturing group) covers exactly the patterns of the source; the
matcher replicates the leftmost-search, greedy-maximal and lazy-minimal
preferences of Python `re.search`.  The matcher takes a fuel argument so
that it is structurally recursive and evaluates inside the kernel; the
fuel passed by `rsearch` strictly exceeds the depth of any chain of
recursive calls, every one of which decreases the lexicographic measure
on (input length, pattern length).
-/

/-- A Python string: a list of unicode code points. -/
abbrev Str := List Char

/-- Coerce a Lean string literal to the `Str` model. -/
def str (s : String) : Str := s.data

/-- Character classes appearing in the source patterns: `\s`, `\d`, and
`.` under `re.DOTALL`. -/
inductive CharCls where
  | ws
  | digit
  | anyD
deriving DecidableEq

/-- Membership test of a character class.  `\s` is modelled by the ASCII
whitespace set matched by Python (space, tab, newline, carriage return,
vertical tab, form feed). -/
def CharCls.test : CharCls → Char → Bool
  | .ws, c => c == ' ' || c == '\t' || c == '\n' || c == '\r' || c == '\x0b' || c == '\x0c'
  | .digit, c => c.isDigit
  | .anyD, _ => true

/-- One element of a regex pattern: a literal character, a single
class character, a greedy star, a lazy star, or the opening/closing
marker of the (single) capturing group. -/
inductive RItem where
  | lit (c : Char)
  | one (k : CharCls)
  | starG (k : CharCls)
  | starL (k : CharCls)
  | grpO
  | grpC
deriving DecidableEq

/-- Case folding used for `re.IGNORECASE`: ASCII lowering extended to the
one non-ASCII cased letter appearing in the source patterns. -/
def ciLower (c : Char) : Char :=
  if c == 'Ó' then 'ó' else c.toLower

/-- Literal comparison, case-insensitive when `ci` is set. -/
def litEq (ci : Bool) (p c : Char) : Bool :=
  if ci then ciLower p == ciLower c else p == c

/-- Backtracking matcher anchored at the start of `s`.  `g` says whether
the position is inside the capturing group and `acc` holds the captured
characters in reverse.  Preference order mirrors Python `re`: a greedy
star first tries to consume, a lazy star first tries the rest of the
pattern.  Returns the contents of the capturing group of the preferred
match, or `none` when no match starts here. -/
def rmatch (ci : Bool) : Nat → List RItem → Str → Bool → Str → Option Str
  | 0, _, _, _, _ => none
  | _ + 1, [], _, _, acc => some acc.reverse
  | f + 1, .lit p :: ps, s, g, acc =>
      match s with
      | c :: s' =>
          if litEq ci p c then rmatch ci f ps s' g (if g then c :: acc else acc) else none
      | [] => none
  | f + 1, .one k :: ps, s, g, acc =>
      match s with
      | c :: s' =>
          if k.test c then rmatch ci f ps s' g (if g then c :: acc else acc) else none
      | [] => none
  | f + 1, .starG k :: ps, s, g, acc =>
      (match s with
       | c :: s' =>
           if k.test c then rmatch ci f (.starG k :: ps) s' g (if g then c :: acc else acc)
           else none
       | [] => none).orElse (fun _ => rmatch ci f ps s g acc)
  | f + 1, .starL k :: ps, s, g, acc =>
      (rmatch ci f ps s g acc).orElse (fun _ =>
        match s with
        | c :: s' =>
            if k.test c then rmatch ci f (.starL k :: ps) s' g (if g then c :: acc else acc)
            else none
        | [] => none)
  | f + 1, .grpO :: ps, s, _, acc => rmatch ci f ps s true acc
  | f + 1, .grpC :: ps, s, _, acc => rmatch ci f ps s false acc

/-- Fuel sufficient for `rmatch`: every recursive call strictly decreases
(input length, pattern length) lexicographically, so call depth is below
`(|s| + 1) * (|ps| + 1)`. -/
def rfuel (ps : List RItem) (s : Str) : Nat :=
  (s.length + 1) * (ps.length + 1) + 1

/-- `re.search` semantics: try the pattern anchored at each position from
left to right and return the capture of the first position that matches. -/
def rsearch (ci : Bool) (ps : List RItem) : Str → Option Str
  | [] => rmatch ci (rfuel ps []) ps [] false []
  | c :: s' =>
      match rmatch ci (rfuel ps (c :: s')) ps (c :: s') false [] with
      | some g => some g
      | none => rsearch ci ps s'

/-- Literal characters of a pattern. -/
def lits (s : String) : List RItem := s.data.map RItem.lit

/-- `_SCORE_PATTERN`: the source regex pre-compiled at
analysis_service.py:33, case-sensitive, no DOTALL. -/
def scorePattern : List RItem :=
  lits "Score de Calidad:" ++
    [ .starG .ws, .grpO, .one .digit, .starG .digit, .grpC ] ++ lits "/100"

/-- Shared tail of the three improved-code patterns: lazy gap up to the
fenced python block, then its captured contents. -/
def improvedTail : List RItem :=
  [ .starL .anyD ] ++ lits "```python" ++
    [ .starG .ws, .grpO, .starL .anyD, .grpC, .starG .ws ] ++ lits "```"

/-- First pattern of `_IMPROVED_CODE_PATTERNS` (analysis_service.py:35). -/
def improvedPattern1 : List RItem :=
  lits "##" ++ [ .starG .ws ] ++ lits "✨" ++ [ .starG .ws ] ++
    lits "Código Mejorado" ++ improvedTail

/-- Second pattern of `_IMPROVED_CODE_PATTERNS` (analysis_service.py:36). -/
def improvedPattern2 : List RItem :=
  lits "✨" ++ [ .starG .ws ] ++ lits "Código Mejorado" ++ improvedTail

/-- Third pattern of `_IMPROVED_CODE_PATTERNS` (analysis_service.py:37). -/
def improvedPattern3 : List RItem :=
  lits "Código Mejorado" ++ improvedTail

/-- The ordered list `_IMPROVED_CODE_PATTERNS`. -/
def improvedCodePatterns : List (List RItem) :=
  [improvedPattern1, improvedPattern2, improvedPattern3]

/-- Python `int()` on a captured run of decimal digits. -/
def digitsToInt (g : Str) : Int :=
  Int.ofNat (g.foldl (fun a c => a * 10 + (c.toNat - 48)) 0)

/-- Python `str.strip()` on the whitespace set of `CharCls.ws`. -/
def stripWs (s : Str) : Str :=
  ((s.dropWhile (CharCls.ws.test ·)).reverse.dropWhile (CharCls.ws.test ·)).reverse

/-- `AnalysisService._extract_score` (analysis_service.py:83-89). -/
def extract_score (analisis : Str) : Option Int :=
  match rsearch false scorePattern analisis with
  | some g => some (digitsToInt g)
  | none => none

/-- The `for pattern in _IMPROVED_CODE_PATTERNS` loop: first pattern that
matches wins, its capture is stripped. -/
def firstImprovedMatch : List (List RItem) → Str → Option Str
  | [], _ => none
  | p :: ps, t =>
      match rsearch true p t with
      | some g => some (stripWs g)
      | none => firstImprovedMatch ps t

/-- `AnalysisService._extract_improved_code` (analysis_service.py:91-98). -/
def extract_improved_code (analisis : Str) : Option Str :=
  firstImprovedMatch improvedCodePatterns analisis

/-! ## Data model (backend/app/domain/models.py) -/

/-- A timestamp: calendar day plus time within the day.  `DateTime.date()`
is the `day` projection. -/
structure DT where
  day : Nat
  tick : Nat
deriving DecidableEq

/-- Total order on timestamps (day-major). -/
def DT.le (a b : DT) : Bool :=
  decide (a.day < b.day ∨ (a.day = b.day ∧ a.tick ≤ b.tick))

/-- The `Role` row: only the quota field is read by the core. -/
structure RoleM where
  max_analyses_per_day : Int
deriving DecidableEq

/-- The quota fields of a `User` row (models.py:54-60).  `analyses_today`
and `total_analyses` are nullable integer columns, read through Python
`or 0`. -/
structure UserM where
  id : Int
  analyses_today : Option Int
  total_analyses : Option Int
  last_analysis_date : Option DT
  role : Option RoleM
deriving DecidableEq

/-- An `Analysis` row (models.py:71-90). -/
structure AnalysisM where
  id : Int
  user_id : Int
  code_original : Str
  code_improved : Option Str
  analysis_result : Str
  quality_score : Option Int
  model_used : Str
  created_at : DT
deriving DecidableEq

/-- The relational database: committed rows plus the id the next flushed
`Analysis` row receives. -/
structure Store where
  users : List UserM
  analyses : List AnalysisM
  nextId : Int
deriving DecidableEq

/-- `ck_quality_score_range` (models.py:75-78): quality_score IS NULL OR
0 <= quality_score <= 100. -/
def ckQualityScoreRange : Option Int → Bool
  | none => true
  | some n => decide (0 ≤ n) && decide (n ≤ 100)

/-! ## Constants (analysis_service.py:29-30, config.py) -/

def MAX_CODE_LENGTH : Nat := 40000

def DEFAULT_DAILY_LIMIT : Int := 5

def GEMINI_MODEL : Str := str "gemini-2.5-flash"

/-- Python truthiness of an optional numeric id, as tested by
`if not self.db or not usuario_id` (analysis_service.py:203): `None` and
`0` are both falsy. -/
def pyTruthyId : Option Int → Bool
  | none => false
  | some n => n != 0

/-- Python `x or 0` on a nullable integer column. -/
def pyOr (o : Option Int) : Int := o.getD 0

/-! ## LLM gateway (backend/app/infrastructure/gemini_client.py) -/

/-- Outcome of the underlying OpenRouter chat-completions call: either the
response text (`content or ""`), or the exception the call raised. -/
inductive GatewayOutcome where
  | ok (text : Str)
  | err (msg : Str)
deriving DecidableEq

/-- `GeminiClient.analyze_code` (gemini_client.py:43-57): on success the
response text is returned; any exception is caught and converted into the
string `Error en el análisis: {e}` which is returned as if it were the
analysis text. -/
def analyze_code : GatewayOutcome → Str
  | .ok t => t
  | .err e => str "Error en el análisis: " ++ e

/-! ## Persistence (analysis_service.py:179-253) -/

/-- The service-level error raised by `_persist_analysis`
(`AnalysisPersistenceError`, analysis_service.py:54-56 and 230). -/
inductive SvcError where
  | analysisPersistenceError (msg : Str)
deriving DecidableEq

def userExists (st : Store) (uid : Int) : Bool :=
  st.users.any (fun u => u.id == uid)

/-- `session.flush()` on a pending `Analysis` insert: fails on an injected
infrastructure fault, a foreign-key violation (no such user), or the
`ck_quality_score_range` check constraint; otherwise appends the row. -/
def flushInsert (fault : Bool) (st : Store) (a : AnalysisM) : Except Str Store :=
  if fault then .error (str "database failure")
  else if !userExists st a.user_id then .error (str "foreign key violation")
  else if !ckQualityScoreRange a.quality_score then .error (str "ck_quality_score_range")
  else .ok { st with analyses := st.analyses ++ [a], nextId := st.nextId + 1 }

/-- The body of `_update_user_counters` acting on one user row
(analysis_service.py:244-253): reset `analyses_today` when the calendar
day of `last_analysis_date` differs from today (or is absent), then
increment both counters through `or 0` and stamp `last_analysis_date`. -/
def bumpCounters (now : DT) (u : UserM) : UserM :=
  let afterReset : Option Int :=
    if u.last_analysis_date.map DT.day = some now.day then u.analyses_today else some 0
  { u with
    analyses_today := some (pyOr afterReset + 1),
    total_analyses := some (pyOr u.total_analyses + 1),
    last_analysis_date := some now }

/-- Apply `f` to the first user with the given id, as
`result.scalars().first()` selects (analysis_service.py:237-238); when no
user matches, the list is unchanged (the warn-and-skip branch,
analysis_service.py:240-242). -/
def updateFirstUser : List UserM → Int → (UserM → UserM) → List UserM
  | [], _, _ => []
  | u :: us, uid, f =>
      if u.id == uid then f u :: us else u :: updateFirstUser us uid f

/-- `_update_user_counters` (analysis_service.py:232-253). -/
def updateUserCounters (st : Store) (uid : Int) (now : DT) : Store :=
  { st with users := updateFirstUser st.users uid (bumpCounters now) }

/-- `_persist_analysis` (analysis_service.py:179-230): skip when there is
no database or the user id is falsy; otherwise flush the `Analysis` row
and update the counters inside the same transaction, raising
`AnalysisPersistenceError` when the flush fails. -/
def persist_analysis (fault : Bool) (hasDb : Bool) (st : Store) (now : DT)
    (usuario_id : Option Int) (codigo : Str) (codigo_mejorado : Option Str)
    (analisis : Str) (score : Option Int) : Except SvcError (Store × Option Int) :=
  if !hasDb || !pyTruthyId usuario_id then .ok (st, none)
  else
    let uid := usuario_id.getD 0
    let row : AnalysisM :=
      { id := st.nextId, user_id := uid, code_original := codigo,
        code_improved := codigo_mejorado, analysis_result := analisis,
        quality_score := score, model_used := GEMINI_MODEL, created_at := now }
    match flushInsert fault st row with
    | .error e =>
        .error (.analysisPersistenceError (str "No se pudo guardar el análisis: " ++ e))
    | .ok st1 => .ok (updateUserCounters st1 uid now, some row.id)

/-! ## The analyze operation (analysis_service.py:100-177) -/

/-- The result dictionary returned by `analizar_codigo`; keys absent from
a given branch of the source are `none`. -/
structure Envelope where
  success : Bool
  analisis : Option Str := none
  error : Option Str := none
  codigo : Str
  usuario_id : Option Int := none
  timestamp : DT
  modelo_usado : Option Str := none
  analysis_id : Option Int := none
deriving DecidableEq

/-- The test `not codigo or not codigo.strip()` (analysis_service.py:120). -/
def isEmptyish (codigo : Str) : Bool :=
  codigo.isEmpty || (stripWs codigo).isEmpty

/-- `AnalysisService.analizar_codigo` (analysis_service.py:100-177).

`persistFault` injects an infrastructure failure into the flush of the
`Analysis` insert; `gw` is the outcome of the underlying gateway call fed
through `analyze_code` (the user-supplied API key only selects which
client instance performs that call and changes nothing else, so it is not
a parameter).  Returns the result dictionary together with the pending
session state.  The final catch-all `except Exception` of the source can
only be reached by `AnalysisPersistenceError` here, because
`GeminiClient.analyze_code` swallows every gateway exception; the
catch-all returns the generic failure envelope and leaves the pending
transaction to the caller (nothing flushed survives, so the pending state
is the original store). -/
def analizar_codigo (persistFault : Bool) (gw : GatewayOutcome) (now : DT)
    (hasDb : Bool) (st : Store) (codigo : Str) (usuario_id : Option Int) :
    Envelope × Store :=
  if isEmptyish codigo then
    ({ success := false, error := some (str "El código no puede estar vacío"),
       codigo := codigo, timestamp := now }, st)
  else if codigo.length > MAX_CODE_LENGTH then
    ({ success := false,
       error := some (str "El código es demasiado largo (máximo 40,000 caracteres)"),
       codigo := codigo.take 100 ++ str "...", timestamp := now }, st)
  else
    let analisis := analyze_code gw
    let score := extract_score analisis
    let codigo_mejorado := extract_improved_code analisis
    match persist_analysis persistFault hasDb st now usuario_id codigo
        codigo_mejorado analisis score with
    | .ok (st1, analysis_id) =>
        ({ success := true, analisis := some analisis, codigo := codigo,
           usuario_id := usuario_id, timestamp := now,
           modelo_usado := some GEMINI_MODEL, analysis_id := analysis_id }, st1)
    | .error (.analysisPersistenceError _) =>
        ({ success := false,
           error := some (str "Error al procesar el análisis. Intente nuevamente."),
           codigo := if codigo.length > 100 then codigo.take 100 ++ str "..." else codigo,
           timestamp := now }, st)

/-- The request boundary: the router raises `HTTPException` whenever the
envelope has `success=False` (analysis_router.py:152-156), in which case
the `get_db` dependency rolls the session back; otherwise it commits
(database.py:108-115).  The second component is the committed store the
next request observes. -/
def analysisRequestCommitted (persistFault : Bool) (gw : GatewayOutcome) (now : DT)
    (st : Store) (codigo : Str) (usuario_id : Option Int) : Envelope × Store :=
  let r := analizar_codigo persistFault gw now true st codigo usuario_id
  (r.1, if r.1.success then r.2 else st)

/-! ## Statistics (analysis_service.py:255-294) -/

/-- The statistics dictionary.  `score_promedio` models
`round(float(avg), 1)` by exact rational rounding to one decimal. -/
structure StatsEnvelope where
  total_analisis : Int
  analisis_hoy : Int
  score_promedio : ℚ
  limite_diario : Int
  analisis_restantes : Int
deriving DecidableEq

/-- The rows `SELECT ... FROM analyses WHERE user_id = uid` returns. -/
def userAnalyses (st : Store) (uid : Int) : List AnalysisM :=
  st.analyses.filter (fun a => a.user_id == uid)

/-- The column values entering `func.avg(Analysis.quality_score)` under
the filter `Analysis.quality_score.isnot(None)`. -/
def presentScores (st : Store) (uid : Int) : List Int :=
  (userAnalyses st uid).filterMap (fun a => a.quality_score)

/-- `SELECT avg(quality_score) ... ` followed by `or 0.0`: the exact mean
of the non-null scores, `0` when there are none. -/
def avgScore (st : Store) (uid : Int) : ℚ :=
  let l := presentScores st uid
  if l.isEmpty then 0 else ((l.foldl (· + ·) 0 : Int) : ℚ) / (l.length : ℚ)

/-- `round(float(avg_score), 1)`, modelled on exact rationals (floor of
`10q + 1/2`, divided by 10). -/
def round1 (q : ℚ) : ℚ := ((⌊q * 10 + 1 / 2⌋ : ℤ) : ℚ) / 10

/-- `getattr(user.role, "max_analyses_per_day", DEFAULT_DAILY_LIMIT) if
user.role else DEFAULT_DAILY_LIMIT` (analysis_service.py:282). -/
def roleDailyLimit (u : UserM) : Int :=
  match u.role with
  | some r => r.max_analyses_per_day
  | none => DEFAULT_DAILY_LIMIT

/-- `AnalysisService.obtener_estadisticas` (analysis_service.py:255-294).
Returns `none` when the user does not exist (`AnalysisError` raised). -/
def obtener_estadisticas (hasDb : Bool) (st : Store) (uid : Int) :
    Option StatsEnvelope :=
  if !hasDb then
    some { total_analisis := 0, analisis_hoy := 0, score_promedio := 0,
           limite_diario := DEFAULT_DAILY_LIMIT,
           analisis_restantes := DEFAULT_DAILY_LIMIT }
  else
    match st.users.find? (fun u => u.id == uid) with
    | none => none
    | some user =>
        let limite_diario := roleDailyLimit user
        let analisis_hoy := pyOr user.analyses_today
        some { total_analisis := pyOr user.total_analyses,
               analisis_hoy := analisis_hoy,
               score_promedio := round1 (avgScore st uid),
               limite_diario := limite_diario,
               analisis_restantes := max 0 (limite_diario - analisis_hoy) }

/-! ## History (analysis_service.py:296-350) -/

/-- One entry of the history response. -/
structure HistoryItem where
  id : Int
  codigo_snippet : Str
  score : Option Int
  created_at : DT
  modelo_usado : Str
deriving DecidableEq

/-- The history response dictionary. -/
structure HistoryEnvelope where
  items : List HistoryItem
  total : Int
  limit : Nat
  offset : Nat
deriving DecidableEq

/-- Insert into a list kept in descending `created_at` order. -/
def insertDesc (a : AnalysisM) : List AnalysisM → List AnalysisM
  | [] => [a]
  | b :: bs =>
      if DT.le b.created_at a.created_at then a :: b :: bs else b :: insertDesc a bs

/-- `ORDER BY created_at DESC` (ties resolved deterministically). -/
def sortDesc : List AnalysisM → List AnalysisM
  | [] => []
  | a :: l => insertDesc a (sortDesc l)

/-- The item formatting of analysis_service.py:330-343. -/
def historyItemOf (a : AnalysisM) : HistoryItem :=
  { id := a.id,
    codigo_snippet :=
      if a.code_original.length > 100 then a.code_original.take 100 ++ str "..."
      else a.code_original,
    score := a.quality_score,
    created_at := a.created_at,
    modelo_usado := a.model_used }

/-- `AnalysisService.obtener_historial` (analysis_service.py:296-350): a
count of all rows of the user, independent of the page, and one page of
the rows ordered by creation time descending (`OFFSET offset LIMIT
limit`). -/
def obtener_historial (hasDb : Bool) (st : Store) (uid : Int)
    (limit offset : Nat) : HistoryEnvelope :=
  if !hasDb then { items := [], total := 0, limit := limit, offset := offset }
  else
    let total := (userAnalyses st uid).length
    let page := ((sortDesc (userAnalyses st uid)).drop offset).take limit
    { items := page.map historyItemOf, total := Int.ofNat total,
      limit := limit, offset := offset }

/-! ## Invariants and fixtures -/

/-- Number of `Analysis` rows owned by a user. -/
def countAnalyses (st : Store) (uid : Int) : Nat :=
  (userAnalyses st uid).length

/-- User ids are unique (the `users.id` primary key). -/
def idsNodup (st : Store) : Prop :=
  (st.users.map UserM.id).Nodup

/-- For every user, the `total_analyses` counter (read through `or 0`) agrees
with the number of `Analysis` rows the user owns. -/
def countersAgree (st : Store) : Prop :=
  ∀ u ∈ st.users, pyOr u.total_analyses = Int.ofNat (countAnalyses st u.id)

/-- A fixed instant used by concrete scenarios. -/
def exNow : DT := { day := 10, tick := 3 }

/-- A fresh user with no prior analyses. -/
def exUser1 : UserM :=
  { id := 1, analyses_today := some 0, total_analyses := some 0,
    last_analysis_date := none, role := none }

/-- A database holding exactly `exUser1` and no analyses. -/
def exStore : Store := { users := [exUser1], analyses := [], nextId := 1 }

/-- A whitespace-only submission of 150 characters. -/
def ws150 : Str := List.replicate 150 ' '

/-- A submission of `n` copies of a non-whitespace character. -/
def aN (n : Nat) : Str := List.replicate n 'a'

/-- Fifteen stored analyses for user 1, with distinct creation times. -/
def store15 : Store :=
  { users := [exUser1],
    analyses := (List.range 15).map (fun i =>
      { id := Int.ofNat i, user_id := 1, code_original := str "c",
        code_improved := none, analysis_result := str "r",
        quality_score := none, model_used := GEMINI_MODEL,
        created_at := { day := 1, tick := i } }),
    nextId := 16 }

/-- A user with prior same-day activity and no role row. -/
def exUser2 : UserM :=
  { id := 2, analyses_today := some 2, total_analyses := some 3,
    last_analysis_date := some { day := 10, tick := 1 }, role := none }

/-- A user whose role grants 100 analyses per day. -/
def exUser3 : UserM :=
  { id := 3, analyses_today := some 7, total_analyses := some 9,
    last_analysis_date := none, role := some { max_analyses_per_day := 100 } }

/-- A database for the statistics scenarios: user 2 owns one scored and
one unscored analysis, user 3 owns none, and an unrelated user owns a
scored one. -/
def statsStore : Store :=
  { users := [exUser2, exUser3, exUser1],
    analyses :=
      [ { id := 1, user_id := 2, code_original := str "a",
          code_improved := none, analysis_result := str "r",
          quality_score := some 80, model_used := GEMINI_MODEL,
          created_at := { day := 9, tick := 0 } },
        { id := 2, user_id := 2, code_original := str "b",
          code_improved := none, analysis_result := str "r",
          quality_score := none, model_used := GEMINI_MODEL,
          created_at := { day := 10, tick := 0 } },
        { id := 3, user_id := 1, code_original := str "c",
          code_improved := none, analysis_result := str "r",
          quality_score := some 10, model_used := GEMINI_MODEL,
          created_at := { day := 10, tick := 1 } } ],
    nextId := 4 }

/-! ## Helper lemmas -/

theorem DT.le_total (a b : DT) : DT.le a b = true ∨ DT.le b a = true := by
  simp only [DT.le, decide_eq_true_eq]
  omega

theorem DT.le_trans {a b c : DT} (h1 : DT.le a b = true) (h2 : DT.le b c = true) :
    DT.le a c = true := by
  simp only [DT.le, decide_eq_true_eq] at *
  omega

theorem mem_insertDesc {a b : AnalysisM} {l : List AnalysisM} :
    b ∈ insertDesc a l ↔ b = a ∨ b ∈ l := by
  induction l with
  | nil => simp [insertDesc]
  | cons c cs ih =>
      simp only [insertDesc]
      split
      · simp
      · simp [ih]
        tauto

theorem length_insertDesc (a : AnalysisM) (l : List AnalysisM) :
    (insertDesc a l).length = l.length + 1 := by
  induction l with
  | nil => simp [insertDesc]
  | cons c cs ih =>
      simp only [insertDesc]
      split <;> simp [ih]

theorem pairwise_insertDesc {a : AnalysisM} {l : List AnalysisM}
    (h : l.Pairwise (fun x y => DT.le y.created_at x.created_at = true)) :
    (insertDesc a l).Pairwise (fun x y => DT.le y.created_at x.created_at = true) := by
  induction l with
  | nil => simp [insertDesc]
  | cons b bs ih =>
      rcases List.pairwise_cons.mp h with ⟨hb, hbs⟩
      simp only [insertDesc]
      split
      · rename_i hle
        refine List.pairwise_cons.mpr ⟨?_, h⟩
        intro x hx
        rcases List.mem_cons.mp hx with rfl | hx'
        · exact hle
        · exact DT.le_trans (hb x hx') hle
      · rename_i hle
        refine List.pairwise_cons.mpr ⟨?_, ih hbs⟩
        intro x hx
        rcases mem_insertDesc.mp hx with rfl | hx'
        · rcases DT.le_total x.created_at b.created_at with h' | h'
          · exact h'
          · exact absurd h' hle
        · exact hb x hx'

theorem pairwise_sortDesc (l : List AnalysisM) :
    (sortDesc l).Pairwise (fun x y => DT.le y.created_at x.created_at = true) := by
  induction l with
  | nil => simp [sortDesc]
  | cons a l ih => exact pairwise_insertDesc ih

theorem length_sortDesc (l : List AnalysisM) : (sortDesc l).length = l.length := by
  induction l with
  | nil => rfl
  | cons a l ih => simp [sortDesc, length_insertDesc, ih]

theorem mem_sortDesc {b : AnalysisM} {l : List AnalysisM} :
    b ∈ sortDesc l ↔ b ∈ l := by
  induction l with
  | nil => simp [sortDesc]
  | cons a l ih => simp [sortDesc, mem_insertDesc, ih]

theorem map_update_id_of_no_match {us : List UserM} {uid : Int} {f : UserM → UserM}
    (h : ∀ u ∈ us, u.id ≠ uid) :
    us.map (fun u => if u.id == uid then f u else u) = us := by
  induction us with
  | nil => rfl
  | cons u us ih =>
      simp only [List.map_cons]
      rw [if_neg, ih (fun v hv => h v (List.mem_cons_of_mem u hv))]
      simp only [beq_iff_eq]
      exact h u (List.mem_cons_self u us)

theorem updateFirstUser_eq_map {uid : Int} {f : UserM → UserM} :
    ∀ {us : List UserM}, (us.map UserM.id).Nodup →
      updateFirstUser us uid f = us.map (fun u => if u.id == uid then f u else u) := by
  intro us
  induction us with
  | nil => intro _; rfl
  | cons u us ih =>
      intro hn
      have hh : (∀ x ∈ us, ¬x.id = u.id) ∧ (List.map UserM.id us).Nodup := by
        simpa using hn
      simp only [updateFirstUser, List.map_cons]
      by_cases h : u.id = uid
      · rw [if_pos (by simpa using h), if_pos (by simpa using h)]
        rw [map_update_id_of_no_match]
        intro v hv hveq
        exact hh.1 v hv (by rw [hveq, h])
      · rw [if_neg (by simpa using h), if_neg (by simpa using h), ih hh.2]

theorem countAnalyses_eq_of_analyses {s1 s2 : Store} (h : s1.analyses = s2.analyses)
    (x : Int) : countAnalyses s1 x = countAnalyses s2 x := by
  simp [countAnalyses, userAnalyses, h]

theorem countAnalyses_append_one (st : Store) (row : AnalysisM) (x : Int) (n : Int) :
    countAnalyses { users := st.users, analyses := st.analyses ++ [row], nextId := n } x
      = countAnalyses st x + (if row.user_id == x then 1 else 0) := by
  simp only [countAnalyses, userAnalyses, List.filter_append, List.length_append]
  by_cases h : (row.user_id == x) = true <;> simp [List.filter_cons, h]

theorem bumpCounters_id (now : DT) (u : UserM) : (bumpCounters now u).id = u.id := rfl

theorem bumpCounters_total (now : DT) (u : UserM) :
    pyOr (bumpCounters now u).total_analyses = pyOr u.total_analyses + 1 := rfl

theorem countersAgree_insert_bump {st : Store} {uid : Int} {row : AnalysisM} {now : DT}
    (hn : idsNodup st) (ha : countersAgree st) (hrow : row.user_id = uid) :
    countersAgree (updateUserCounters
      { users := st.users, analyses := st.analyses ++ [row], nextId := st.nextId + 1 }
      uid now) := by
  intro u' hu'
  have hmap := @updateFirstUser_eq_map uid (bumpCounters now) st.users
    (by simpa [idsNodup] using hn)
  simp only [updateUserCounters] at hu' ⊢
  rw [hmap] at hu'
  rcases List.mem_map.mp hu' with ⟨u, hu, rfl⟩
  have hcount : ∀ x : Int, countAnalyses
      { users := updateFirstUser st.users uid (bumpCounters now),
        analyses := st.analyses ++ [row], nextId := st.nextId + 1 } x
      = countAnalyses st x + (if row.user_id == x then 1 else 0) := fun x =>
    (countAnalyses_eq_of_analyses rfl x).trans
      (countAnalyses_append_one st row x (st.nextId + 1))
  by_cases h : u.id = uid
  · rw [if_pos (by simpa using h)]
    rw [bumpCounters_id, hcount u.id, if_pos (by simp [hrow, h])]
    rw [bumpCounters_total, ha u hu]
    simp [Int.ofNat_add]
  · rw [if_neg (by simpa using h)]
    rw [hcount u.id, if_neg ?hne, ha u hu]
    · simp
    case hne =>
      simp only [beq_iff_eq, hrow]
      exact fun hh => h hh.symm

/-! ## Claim theorems -/

/-- Claim C4: for every user state, one successful persisted analysis
updates the quota counters so that `analyses_today` ends at 1 when the
calendar day of `last_analysis_date` differs from today or is absent
(reset to 0 before incrementing), and is incremented by exactly 1
otherwise; `total_analyses` is incremented by exactly 1 in either case;
and `last_analysis_date` is set to the current instant. -/
theorem c4_quota_counter_update (u : UserM) (now : DT) :
    (bumpCounters now u).analyses_today =
      some (if u.last_analysis_date.map DT.day = some now.day
            then pyOr u.analyses_today + 1 else 1)
  ∧ (bumpCounters now u).total_analyses = some (pyOr u.total_analyses + 1)
  ∧ (bumpCounters now u).last_analysis_date = some now := by
  refine ⟨?_, rfl, rfl⟩
  simp only [bumpCounters]
  split <;> simp [pyOr]

/-- Claim C5: `_extract_improved_code` tries the three patterns of
`_IMPROVED_CODE_PATTERNS` in their fixed order (most specific heading
form first); for every input text it returns the trimmed contents of the
fenced block captured by the first pattern that matches, even when a
later, looser pattern would match a different span, and returns `none`
when no pattern matches. -/
theorem c5_improved_code_precedence (t g : Str) :
    improvedCodePatterns = [improvedPattern1, improvedPattern2, improvedPattern3]
  ∧ (rsearch true improvedPattern1 t = some g →
      extract_improved_code t = some (stripWs g))
  ∧ (rsearch true improvedPattern1 t = none →
      rsearch true improvedPattern2 t = some g →
      extract_improved_code t = some (stripWs g))
  ∧ (rsearch true improvedPattern1 t = none →
      rsearch true improvedPattern2 t = none →
      rsearch true improvedPattern3 t = some g →
      extract_improved_code t = some (stripWs g))
  ∧ (rsearch true improvedPattern1 t = none →
      rsearch true improvedPattern2 t = none →
      rsearch true improvedPattern3 t = none →
      extract_improved_code t = none) := by
  refine ⟨rfl, ?_, ?_, ?_, ?_⟩
  · intro h1
    simp [extract_improved_code, improvedCodePatterns, firstImprovedMatch, h1]
  · intro h1 h2
    simp [extract_improved_code, improvedCodePatterns, firstImprovedMatch, h1, h2]
  · intro h1 h2 h3
    simp [extract_improved_code, improvedCodePatterns, firstImprovedMatch, h1, h2, h3]
  · intro h1 h2 h3
    simp [extract_improved_code, improvedCodePatterns, firstImprovedMatch, h1, h2, h3]

/-- Witness for C5: on a text whose heading carries the decorative marker
but no `##`, the first pattern fails, the second matches, and the
returned block is the trimmed capture of the second pattern. -/
theorem c5_improved_code_precedence_witness :
    extract_improved_code (str "✨ Código Mejorado:\n```python\nx = 1\n```")
      = some (str "x = 1") := by
  have h := (c5_improved_code_precedence
      (str "✨ Código Mejorado:\n```python\nx = 1\n```") (str "x = 1")).2.2.1
    (by decide) (by decide)
  exact h.trans (by decide)

/-- Claim C6: `_extract_score` returns the integer value of the first
occurrence of the score-label pattern and `none` when the label is
absent; the label is case-sensitive; no 0-100 range validation is
performed, so an out-of-range captured value (150) is returned as-is and
the analysis then fails at the persistence-layer
`ck_quality_score_range` constraint instead of being silently clamped. -/
theorem c6_extract_score (t g : Str) :
    (rsearch false scorePattern t = some g →
      extract_score t = some (digitsToInt g))
  ∧ (rsearch false scorePattern t = none → extract_score t = none)
  ∧ extract_score (str "Score de Calidad: 150/100") = some 150
  ∧ extract_score (str "Score de Calidad: 10/100 y Score de Calidad: 20/100")
      = some 10
  ∧ extract_score (str "score de calidad: 10/100") = none
  ∧ ckQualityScoreRange (some 150) = false
  ∧ (analizar_codigo false (.ok (str "Score de Calidad: 150/100")) exNow true
      exStore (str "print(1)") (some 1)).1.success = false
  ∧ (analizar_codigo false (.ok (str "Score de Calidad: 150/100")) exNow true
      exStore (str "print(1)") (some 1)).1.error
      = some (str "Error al procesar el análisis. Intente nuevamente.") := by
  refine ⟨?_, ?_, by decide, by decide, by decide, by decide, by decide, by decide⟩
  · intro h
    simp [extract_score, h]
  · intro h
    simp [extract_score, h]

/-- Witness for C6: the score label in a gateway response is parsed into
its integer value. -/
theorem c6_extract_score_witness :
    extract_score (str "Score de Calidad: 85/100") = some 85 := by
  have h := (c6_extract_score (str "Score de Calidad: 85/100") (str "85")).1
    (by decide)
  exact h.trans (by decide)

theorem ws_test_a : CharCls.ws.test 'a' = false := rfl

theorem dropWhile_ws_replicate_a (n : Nat) :
    (List.replicate n 'a').dropWhile (CharCls.ws.test ·) = List.replicate n 'a' := by
  cases n with
  | zero => rfl
  | succ m => simp [List.replicate_succ, List.dropWhile_cons, ws_test_a]

theorem stripWs_aN (n : Nat) : stripWs (aN n) = aN n := by
  unfold stripWs aN
  rw [dropWhile_ws_replicate_a, List.reverse_replicate, dropWhile_ws_replicate_a,
    List.reverse_replicate]

theorem isEmptyish_aN (n : Nat) : isEmptyish (aN (n + 1)) = false := by
  unfold isEmptyish
  rw [stripWs_aN]
  simp [aN, List.replicate_succ]

theorem length_aN (n : Nat) : (aN n).length = n := by
  simp [aN]

set_option maxRecDepth 40000 in
/-- Counterexample for C7: a whitespace-only submission of 150 characters
returns the empty-input failure envelope whose `codigo` field is the full
150-character submission, unmodified — not a truncated snippet — so the
claim that both failure cases carry a truncated offending snippet is
false on the code. -/
theorem c7_counterexample :
    (analizar_codigo false (.ok (str "t")) exNow true exStore ws150 none).1.success
        = false
  ∧ (analizar_codigo false (.ok (str "t")) exNow true exStore ws150 none).1.error
        = some (str "El código no puede estar vacío")
  ∧ (analizar_codigo false (.ok (str "t")) exNow true exStore ws150 none).1.codigo
        = ws150
  ∧ ws150.length = 150 := by decide

/-- Claim C7 as amended: a submission of exactly `MAX_CODE_LENGTH`
characters passes validation; a longer one returns the over-length
failure envelope whose snippet is truncated to the first 100 characters
plus an ellipsis; an empty or whitespace-only submission returns the
empty-input failure envelope carrying the submission unmodified (not
truncated); both failures are structured envelopes with `success=False`
and a human-readable reason, and no exception escapes the boundary (the
operation is a total function into envelopes). -/
theorem c7_input_validation (st : Store) (gw : GatewayOutcome) (now : DT)
    (codigo : Str) (uid : Option Int) (f hasDb : Bool) :
    (isEmptyish codigo = false → codigo.length ≤ MAX_CODE_LENGTH →
      (analizar_codigo f gw now hasDb st codigo none).1.success = true)
  ∧ (isEmptyish codigo = true →
      analizar_codigo f gw now hasDb st codigo uid =
        ({ success := false, error := some (str "El código no puede estar vacío"),
           codigo := codigo, timestamp := now }, st))
  ∧ (isEmptyish codigo = false → codigo.length > MAX_CODE_LENGTH →
      analizar_codigo f gw now hasDb st codigo uid =
        ({ success := false,
           error := some (str "El código es demasiado largo (máximo 40,000 caracteres)"),
           codigo := codigo.take 100 ++ str "...", timestamp := now }, st)) := by
  refine ⟨?_, ?_, ?_⟩
  · intro h1 h2
    simp [analizar_codigo, h1, Nat.not_lt.mpr h2, persist_analysis, pyTruthyId]
  · intro h1
    simp [analizar_codigo, h1]
  · intro h1 h2
    simp [analizar_codigo, h1, h2]

/-- Witness for C7: the 40,000-character boundary passes and 40,001
characters fail with the over-length error. -/
theorem c7_input_validation_witness :
    (analizar_codigo false (.ok (str "ok")) exNow true exStore
        (aN MAX_CODE_LENGTH) none).1.success = true
  ∧ (analizar_codigo false (.ok (str "ok")) exNow true exStore
        (aN (MAX_CODE_LENGTH + 1)) none).1.error
      = some (str "El código es demasiado largo (máximo 40,000 caracteres)") := by
  constructor
  · exact (c7_input_validation exStore (.ok (str "ok")) exNow (aN MAX_CODE_LENGTH)
      none false true).1 (isEmptyish_aN 39999) (by rw [length_aN])
  · have h := (c7_input_validation exStore (.ok (str "ok")) exNow
      (aN (MAX_CODE_LENGTH + 1)) none false true).2.2 (isEmptyish_aN MAX_CODE_LENGTH)
      (by rw [length_aN]; omega)
    rw [h]

/-- Claim C10: a call with `usuario_id = 0` is treated like an anonymous
request because `_persist_analysis` tests the id for truthiness: the
persistence step is skipped wholesale (`.ok (st, none)`), the database is
unchanged, the envelope reports success, and its `analysis_id` is
absent. -/
theorem c10_zero_user_id (st : Store) (gw : GatewayOutcome) (now : DT)
    (codigo : Str) (f hasDb : Bool) (codigo_mejorado : Option Str)
    (analisis : Str) (score : Option Int)
    (h1 : isEmptyish codigo = false) (h2 : codigo.length ≤ MAX_CODE_LENGTH) :
    persist_analysis f hasDb st now (some 0) codigo codigo_mejorado analisis score
        = .ok (st, none)
  ∧ (analizar_codigo f gw now hasDb st codigo (some 0)).2 = st
  ∧ (analizar_codigo f gw now hasDb st codigo (some 0)).1.success = true
  ∧ (analizar_codigo f gw now hasDb st codigo (some 0)).1.analysis_id = none := by
  refine ⟨by simp [persist_analysis, pyTruthyId], ?_, ?_, ?_⟩ <;>
    simp [analizar_codigo, h1, Nat.not_lt.mpr h2, persist_analysis, pyTruthyId]

/-- Witness for C10: a concrete valid submission with user id 0 leaves
the store untouched and returns a success envelope without an
analysis id. -/
theorem c10_zero_user_id_witness :
    (analizar_codigo false (.ok (str "r")) exNow true exStore (str "x = 1")
        (some 0)).2 = exStore
  ∧ (analizar_codigo false (.ok (str "r")) exNow true exStore (str "x = 1")
        (some 0)).1.analysis_id = none := by
  have h := c10_zero_user_id exStore (.ok (str "r")) exNow (str "x = 1") false true
    none (str "r") none (by decide) (by decide)
  exact ⟨h.2.1, h.2.2.2⟩

/-- Counterexample for C1: with the persistence step failing (injected
fault) on an otherwise valid authenticated request, `analizar_codigo`
returns the generic failure envelope — the distinct
`AnalysisPersistenceError` raised by `_persist_analysis` is caught by the
blanket `except Exception` of `analizar_codigo` (analysis_service.py:170)
and degraded into the same generic envelope used for any other processing
error, so no distinct persistence-failure type reaches the caller. -/
theorem c1_counterexample :
    (analizar_codigo true (.ok (str "texto")) exNow true exStore
        (str "print(1)") (some 1)).1.success = false
  ∧ (analizar_codigo true (.ok (str "texto")) exNow true exStore
        (str "print(1)") (some 1)).1.error
      = some (str "Error al procesar el análisis. Intente nuevamente.") := by decide

/-- Claim C1 as amended: when the persistence step fails,
`_persist_analysis` raises the distinct `AnalysisPersistenceError`, the
operation aborts with no partial success (the envelope reports failure,
carries no analysis id, and nothing is committed), but the top-level
handler of `analizar_codigo` catches that error and returns the generic
failure envelope — the distinct error type is not surfaced to the
caller. -/
theorem c1_persistence_failure (st : Store) (gw : GatewayOutcome) (now : DT)
    (codigo : Str) (uid : Option Int)
    (h1 : isEmptyish codigo = false) (h2 : codigo.length ≤ MAX_CODE_LENGTH)
    (h3 : pyTruthyId uid = true) :
    persist_analysis true true st now uid codigo
        (extract_improved_code (analyze_code gw)) (analyze_code gw)
        (extract_score (analyze_code gw))
      = .error (.analysisPersistenceError
          (str "No se pudo guardar el análisis: " ++ str "database failure"))
  ∧ (analizar_codigo true gw now true st codigo uid).1.success = false
  ∧ (analizar_codigo true gw now true st codigo uid).1.error
      = some (str "Error al procesar el análisis. Intente nuevamente.")
  ∧ (analizar_codigo true gw now true st codigo uid).1.analysis_id = none
  ∧ (analysisRequestCommitted true gw now st codigo uid).2 = st := by
  refine ⟨?_, ?_, ?_, ?_, ?_⟩ <;>
    simp [analysisRequestCommitted, analizar_codigo, h1, Nat.not_lt.mpr h2,
      persist_analysis, h3, flushInsert]

/-- Witness for C1 (amended): a concrete faulted request rolls back to
the original store and reports the generic failure. -/
theorem c1_persistence_failure_witness :
    (analysisRequestCommitted true (.ok (str "r")) exNow exStore (str "y = 2")
        (some 1)).2 = exStore := by
  have h := c1_persistence_failure exStore (.ok (str "r")) exNow (str "y = 2")
    (some 1) (by decide) (by decide) (by decide)
  exact h.2.2.2.2

/-- Claim C2 at its failing input: when the underlying gateway call
raises (here: a connection timeout), `GeminiClient.analyze_code` swallows
the exception and returns `Error en el análisis: {e}` as the analysis
text, so `analizar_codigo` reports `success=True`, places the upstream
cause verbatim in the `analisis` field of the envelope, and even persists
it as an `Analysis` row — instead of the failure envelope with a generic
message that the claim requires. -/
theorem c2_gateway_failure_leak :
    analyze_code (.err (str "Connection timeout"))
        = str "Error en el análisis: Connection timeout"
  ∧ (analizar_codigo false (.err (str "Connection timeout")) exNow true exStore
        (str "def f(): pass") (some 1)).1.success = true
  ∧ (analizar_codigo false (.err (str "Connection timeout")) exNow true exStore
        (str "def f(): pass") (some 1)).1.analisis
      = some (str "Error en el análisis: Connection timeout")
  ∧ (analizar_codigo false (.err (str "Connection timeout")) exNow true exStore
        (str "def f(): pass") (some 1)).1.error = none
  ∧ (analizar_codigo false (.err (str "Connection timeout")) exNow true exStore
        (str "def f(): pass") (some 1)).2.analyses.map AnalysisM.analysis_result
      = [str "Error en el análisis: Connection timeout"] := by decide

/-- Claim C3: the `Analysis` insert and the quota counter update commit
together or not at all.  For every store whose user ids are unique and
whose counters agree with the per-user row counts, the committed store
after any analyze request (any gateway outcome, any fault injection)
still satisfies the agreement; and when the insert fails, the committed
store is exactly the initial one, so no counter change is observable. -/
theorem c3_atomic_persistence (st : Store) (gw : GatewayOutcome) (now : DT)
    (codigo : Str) (uid : Option Int) (fault : Bool)
    (hn : idsNodup st) (ha : countersAgree st) :
    countersAgree (analysisRequestCommitted fault gw now st codigo uid).2
  ∧ (fault = true → (analysisRequestCommitted fault gw now st codigo uid).2 = st) := by
  constructor
  · by_cases he : isEmptyish codigo = true
    · simpa [analysisRequestCommitted, analizar_codigo, he] using ha
    · by_cases hl : codigo.length > MAX_CODE_LENGTH
      · simpa [analysisRequestCommitted, analizar_codigo, he, hl] using ha
      · by_cases ht : pyTruthyId uid = true
        · cases fault with
          | true =>
              simpa [analysisRequestCommitted, analizar_codigo, he, hl,
                persist_analysis, ht, flushInsert] using ha
          | false =>
              by_cases hex : userExists st (uid.getD 0) = true
              · by_cases hck :
                    ckQualityScoreRange (extract_score (analyze_code gw)) = true
                · simp [analysisRequestCommitted, analizar_codigo, he, hl,
                    persist_analysis, ht, flushInsert, hex, hck]
                  exact countersAgree_insert_bump hn ha rfl
                · simpa [analysisRequestCommitted, analizar_codigo, he, hl,
                    persist_analysis, ht, flushInsert, hex, hck] using ha
              · simpa [analysisRequestCommitted, analizar_codigo, he, hl,
                  persist_analysis, ht, flushInsert, hex] using ha
        · simpa [analysisRequestCommitted, analizar_codigo, he, hl,
            persist_analysis, ht] using ha
  · intro hf
    subst hf
    by_cases he : isEmptyish codigo = true
    · simp [analysisRequestCommitted, analizar_codigo, he]
    · by_cases hl : codigo.length > MAX_CODE_LENGTH
      · simp [analysisRequestCommitted, analizar_codigo, he, hl]
      · by_cases ht : pyTruthyId uid = true
        · simp [analysisRequestCommitted, analizar_codigo, he, hl,
            persist_analysis, ht, flushInsert]
        · simp [analysisRequestCommitted, analizar_codigo, he, hl,
            persist_analysis, ht]

/-- Witness for C3: a concrete successful request on a coherent store
commits a store whose counters still agree with the row counts. -/
theorem c3_atomic_persistence_witness :
    countersAgree (analysisRequestCommitted false (.ok (str "r")) exNow exStore
      (str "x = 1") (some 1)).2 :=
  (c3_atomic_persistence exStore (.ok (str "r")) exNow (str "x = 1") (some 1)
    false (by unfold idsNodup; decide)
    (by unfold countersAgree countAnalyses userAnalyses; decide)).1

/-- Claim C8: for every existing user, `obtener_estadisticas` returns the
envelope whose average score is computed only over the analyses of the user
with a non-absent quality score (appending a score-less row leaves it
unchanged), whose `analisis_restantes` is `max 0 (limite_diario -
analisis_hoy)`, and whose `limite_diario` resolves from the role of the user,
falling back to `DEFAULT_DAILY_LIMIT = 5` when the role is absent. -/
theorem c8_statistics (st : Store) (u : UserM) (a : AnalysisM)
    (hu : st.users.find? (fun v => v.id == u.id) = some u)
    (hna : a.quality_score = none) :
    obtener_estadisticas true st u.id =
      some { total_analisis := pyOr u.total_analyses,
             analisis_hoy := pyOr u.analyses_today,
             score_promedio := round1 (avgScore st u.id),
             limite_diario := roleDailyLimit u,
             analisis_restantes := max 0 (roleDailyLimit u - pyOr u.analyses_today) }
  ∧ avgScore ({ st with analyses := st.analyses ++ [a] }) u.id = avgScore st u.id
  ∧ roleDailyLimit u =
      (match u.role with
       | some r => r.max_analyses_per_day
       | none => 5) := by
  refine ⟨?_, ?_, ?_⟩
  · simp [obtener_estadisticas, hu]
  · have hone : (List.filter (fun x => x.user_id == u.id) [a]).filterMap
        (fun x => x.quality_score) = [] := by
      by_cases h : (a.user_id == u.id) = true <;> simp [h, hna]
    simp [avgScore, presentScores, userAnalyses, List.filter_append,
      List.filterMap_append, hone]
  · rfl

/-- Witness for C8: in `statsStore`, user 2 (role absent, analyses scored
80 and unscored) gets limit 5, average 80 and remaining 3; user 3 (role
with limit 100, 7 analyses today) gets remaining 93. -/
theorem c8_statistics_witness :
    obtener_estadisticas true statsStore 2
      = some { total_analisis := 3, analisis_hoy := 2, score_promedio := 80,
               limite_diario := 5, analisis_restantes := 3 }
  ∧ obtener_estadisticas true statsStore 3
      = some { total_analisis := 9, analisis_hoy := 7, score_promedio := 0,
               limite_diario := 100, analisis_restantes := 93 } := by
  constructor
  · have h := (c8_statistics statsStore exUser2
      { id := 9, user_id := 2, code_original := str "z", code_improved := none,
        analysis_result := str "z", quality_score := none,
        model_used := GEMINI_MODEL, created_at := exNow }
      (by decide) (by decide)).1
    rw [show exUser2.id = (2 : Int) from rfl] at h
    rw [h]
    simp only [Option.some.injEq, StatsEnvelope.mk.injEq]
    refine ⟨by decide, by decide, ?_, by decide, by decide⟩
    have hps : presentScores statsStore 2 = [80] := by decide
    have havg : avgScore statsStore 2 = 80 := by
      simp [avgScore, hps]
    rw [havg]
    rw [round1]
    rw [show ((80 : ℚ) * 10 + 1 / 2) = 1601 / 2 by norm_num]
    rw [show (⌊(1601 / 2 : ℚ)⌋ : ℤ) = 800 by rw [Int.floor_eq_iff] ; norm_num]
    norm_num
  · have h := (c8_statistics statsStore exUser3
      { id := 9, user_id := 3, code_original := str "z", code_improved := none,
        analysis_result := str "z", quality_score := none,
        model_used := GEMINI_MODEL, created_at := exNow }
      (by decide) (by decide)).1
    rw [show exUser3.id = (3 : Int) from rfl] at h
    rw [h]
    simp only [Option.some.injEq, StatsEnvelope.mk.injEq]
    refine ⟨by decide, by decide, ?_, by decide, by decide⟩
    have hps : presentScores statsStore 3 = [] := by decide
    have havg : avgScore statsStore 3 = 0 := by
      simp [avgScore, hps]
    rw [havg]
    rw [round1]
    rw [show ((0 : ℚ) * 10 + 1 / 2) = 1 / 2 by norm_num]
    rw [show (⌊(1 / 2 : ℚ)⌋ : ℤ) = 0 by rw [Int.floor_eq_iff] ; norm_num]
    norm_num

/-- Claim C9: `obtener_historial` returns the analyses of the user ordered by
creation time descending, each item formatted by `historyItemOf` (code
preview truncated to the first 100 characters plus an ellipsis when
longer, score, creation timestamp, model identifier); the total is the
count of all rows of the user, independent of the requested page; the
page obeys limit/offset (15 rows with limit 10, offset 10 yield exactly
5 items and total 15). -/
theorem c9_history (st : Store) (uid : Int) (limit offset : Nat) :
    (obtener_historial true st uid limit offset).total
        = Int.ofNat (countAnalyses st uid)
  ∧ (obtener_historial true st uid limit offset).items.length
        = min limit (countAnalyses st uid - offset)
  ∧ (obtener_historial true st uid limit offset).items.Pairwise
        (fun x y => DT.le y.created_at x.created_at = true)
  ∧ (∀ it ∈ (obtener_historial true st uid limit offset).items,
        ∃ a ∈ userAnalyses st uid, it = historyItemOf a)
  ∧ (∀ a : AnalysisM, (historyItemOf a).codigo_snippet =
        (if a.code_original.length > 100 then a.code_original.take 100 ++ str "..."
         else a.code_original))
  ∧ (obtener_historial true st uid limit offset).limit = limit
  ∧ (obtener_historial true st uid limit offset).offset = offset
  ∧ (obtener_historial true store15 1 10 10).items.length = 5
  ∧ (obtener_historial true store15 1 10 10).total = 15 := by
  refine ⟨rfl, ?_, ?_, ?_, fun a => rfl, rfl, rfl, by decide, by decide⟩
  · show ((((sortDesc (userAnalyses st uid)).drop offset).take limit).map
        historyItemOf).length = min limit (countAnalyses st uid - offset)
    simp [countAnalyses, length_sortDesc]
  · have hsub : List.Sublist
        (((sortDesc (userAnalyses st uid)).drop offset).take limit)
        (sortDesc (userAnalyses st uid)) :=
      (List.take_sublist _ _).trans (List.drop_sublist _ _)
    have hp := List.Pairwise.sublist hsub (pairwise_sortDesc (userAnalyses st uid))
    show ((((sortDesc (userAnalyses st uid)).drop offset).take limit).map
        historyItemOf).Pairwise (fun x y => DT.le y.created_at x.created_at = true)
    rw [List.pairwise_map]
    exact hp
  · intro it hit
    have hit2 : it ∈ (((sortDesc (userAnalyses st uid)).drop offset).take limit).map
        historyItemOf := hit
    rcases List.mem_map.mp hit2 with ⟨a, ha, rfl⟩
    have hsub : List.Sublist
        (((sortDesc (userAnalyses st uid)).drop offset).take limit)
        (sortDesc (userAnalyses st uid)) :=
      (List.take_sublist _ _).trans (List.drop_sublist _ _)
    exact ⟨a, mem_sortDesc.mp (hsub.subset ha), rfl⟩
